import Mathlib

/-!
Verification of the maubot dice plugin (src/dice.py) against its
natural-language specification.

The development is a shallow embedding of the core of dice.py:

* the roll generator `randomize` (the inner function of `DiceBot.roll`),
  with the random sources made explicit: `u` is the stream of raw values
  fed to `random.randint` (whose contract low ≤ result ≤ high is modelled
  by clamping, so exactly the values the library can return are
  representable), and `z` is the stream of normal perturbations used by
  `random.gauss`; the unbounded `while` loop of the approximation path is
  modelled with explicit fuel, `none` standing for a run that is still
  looping after `fuel` redraws;
* the sandboxed AST calculator `Calc` (`visit_Num`, `visit_Name`,
  `visit_UnaryOp`, `visit_BinOp`, `visit_Call`, `visit_Expr`,
  `Calc.evaluate`), over an AST type mirroring the Python `ast` nodes the
  calculator handles; Python floats are idealized as exact rationals, and
  the whitelisted library callables of `_FUNC_MAP` (whose numeric
  behaviour no claim here depends on) are supplied by an oracle
  parameter;
* the post-expansion part of the `DiceBot.roll` handler (rounding,
  stringification, length check, reply assembly), with the purely
  library-provided steps (`re.sub` dice expansion, `ast.parse`) supplied
  as oracle parameters, so that theorems quantifying over those oracles
  are exactly the statements that hold regardless of what those steps
  produce.
-/

deriving instance DecidableEq for Except

namespace Dice

/-! ## Roll generator (`randomize` inside `DiceBot.roll`) -/

/-- The second argument of `randomize`: a plain die size or an explicit
`(low, high)` range, mirroring `size: Union[int, Tuple[int, int]]`. -/
inductive DiceSize
  | int (n : ℤ)
  | range (lo hi : ℤ)
deriving DecidableEq

/-- Errors raised by `randomize` (both are `ValueError` in the source;
they are kept apart here only to name which `raise` fired). -/
inductive RollErr
  | rangeErr
  | negErr
deriving DecidableEq

/-- `choices_range`: `size if isinstance(size, tuple) else (1, size)`. -/
def choicesRange : DiceSize → ℤ × ℤ
  | .int s => (1, s)
  | .range lo hi => (lo, hi)

/-- `size_is_int: bool = isinstance(size, int)`. -/
def sizeIsInt : DiceSize → Bool
  | .int _ => true
  | .range _ _ => false

/-- Model of `random.randint(lo, hi)` given the raw stream value `v`:
the library guarantees a result in `[lo, hi]` and every such value is
possible, which clamping captures exactly (for `lo ≤ hi`). -/
def randintM (lo hi v : ℤ) : ℤ := max lo (min hi v)

/-- The exact-summation loop `for _ in range(number): _result += roll`.
(The optional recording of individual rolls does not affect the sum and
is modelled at the reply-assembly layer.) -/
def exactSum (lo hi : ℤ) (u : ℕ → ℤ) : ℕ → ℤ
  | 0 => 0
  | n + 1 => exactSum lo hi u n + randintM lo hi (u n)

/-- `mean = number * (largest + 1) / 2` (float arithmetic idealized as ℚ). -/
def gaussMean (number largest : ℤ) : ℚ := number * (largest + 1) / 2

/-- `variance = number * (largest ** 2 - 1) / 12`. -/
def gaussVar (number largest : ℤ) : ℚ := number * (largest ^ 2 - 1) / 12

/-- Python `int()` truncation toward zero of a rational. -/
def ratTrunc (q : ℚ) : ℤ := q.num / (q.den : ℤ)

/-- One draw `int(random.gauss(mean, math.sqrt(variance)))`.  When the
variance is `0`, `random.gauss` returns exactly its mean (`mu + 0 * n`),
so the draw is determined; otherwise the support of the normal
distribution is all reals, so the reachable draws are exactly
`int(mean + z)` for an arbitrary perturbation `z`. -/
def gaussDraw (mean var : ℚ) (z : ℚ) : ℤ :=
  if var = 0 then ratTrunc mean else ratTrunc (mean + z)

/-- Negation of the `while` condition
`_result < number or _result > number * largest`. -/
def gaussAccept (number largest r : ℤ) : Bool :=
  decide (number ≤ r) && decide (r ≤ number * largest)

/-- The rejection loop `while ...: _result = int(random.gauss(...))`,
with `fuel` the number of redraws still allowed, `r` the current
`_result` (initially `0`) and `k` the index into the draw stream; `none`
means the loop is still running after `fuel` redraws. -/
def gaussLoop (number largest : ℤ) (mean var : ℚ) (z : ℕ → ℚ) :
    ℕ → ℤ → ℕ → Option ℤ
  | 0, r, _ => if gaussAccept number largest r then some r else none
  | fuel + 1, r, k =>
    if gaussAccept number largest r then some r
    else gaussLoop number largest mean var z fuel (gaussDraw mean var (z k)) (k + 1)

/-- The `randomize` inner function of `DiceBot.roll` (src/dice.py lines
212-251), with `glimit = self.gauss_limit` (default 100). -/
def randomize (glimit number : ℤ) (size : DiceSize)
    (u : ℕ → ℤ) (z : ℕ → ℚ) (fuel : ℕ) : Except RollErr (Option ℤ) :=
  let cr := choicesRange size
  if ¬ (cr.1 ≤ cr.2) then .error .rangeErr
  else
    let largest := cr.2
    if (sizeIsInt size = true ∧ largest < 0) ∨ number < 0 then .error .negErr
    else if (sizeIsInt size = true ∧ largest = 0) ∨ number = 0 then .ok (some 0)
    else if sizeIsInt size = true ∧ largest = 1 then .ok (some number)
    else if number < glimit then .ok (some (exactSum cr.1 cr.2 u number.toNat))
    else .ok (gaussLoop number largest (gaussMean number largest)
      (gaussVar number largest) z fuel 0 0)

/-! ## Sandboxed evaluator (`class Calc`) -/

/-- `_NUM_MAX = 1_000_000_000_000_000`. -/
def NUM_MAX : ℤ := 1000000000000000

/-- `_NUM_MIN = -_NUM_MAX`. -/
def NUM_MIN : ℤ := -NUM_MAX

/-- The Python exception classes that can arise in `Calc` and in the
`roll` handler.  `DiceBot.roll` catches all of them except `IndexError`
(raised by `tree.body[0]` on an empty module). -/
inductive PyErr
  | typeErr
  | valueErr
  | synErr
  | nameErr
  | zeroDivErr
  | overflowErr
  | indexErr
  | keyErr
deriving DecidableEq

/-- Runtime values of the calculator: Python ints, floats (idealized as
exact rationals) and `None` (the result of `visit_Name` on an unknown
name and of `generic_visit`).  No other value kind can be produced by a
`Calc` visit: string literals evaluate to `None` via `generic_visit` and
the special-cased `ord` reads its argument from the syntax node, not
from an evaluated value. -/
inductive Value
  | int (n : ℤ)
  | float (q : ℚ)
  | vnone
deriving DecidableEq

/-- A numeric literal (`ast.Num`), integer or float. -/
inductive NumLit
  | int (n : ℤ)
  | float (q : ℚ)
deriving DecidableEq

/-- The binary operator nodes of the Python `ast` module.  All but
`matmult` (`@`) have an entry in `_OP_MAP`. -/
inductive BinOpK
  | add | sub | mult | div | pow | floordiv | mod
  | bitand | bitor | bitxor | rshift | lshift | matmult
deriving DecidableEq

/-- The unary operator nodes.  All but `unot` (boolean `not`) have an
entry in `_OP_MAP`. -/
inductive UnOpK
  | invert | usub | uadd | unot
deriving DecidableEq

/-- The expression nodes handled by `Calc`: numeric literal, string
literal, bare name, unary and binary operation, and call (with
positional arguments and keyword arguments, a keyword of `none`
standing for a `**`-expansion node whose `arg` is `None`). -/
inductive PyExpr
  | num (lit : NumLit)
  | str (s : String)
  | name (id : String)
  | unaryop (op : UnOpK) (e : PyExpr)
  | binop (op : BinOpK) (l r : PyExpr)
  | call (func : PyExpr) (args : List PyExpr) (kwargs : List (Option String × PyExpr))

/-- `_OP_LIMITS`: per-operator bounds `(left_max, right_max)`. -/
def opLimits : BinOpK → Option (ℤ × ℤ)
  | .pow => some (1000, 1000)
  | .lshift => some (1000, 1000)
  | .mult => some (1000000000000000, 1000000000000000)
  | .div => some (1000000000000000, 1000000000000000)
  | .floordiv => some (1000000000000000, 1000000000000000)
  | .mod => some (1000000000000000, 1000000000000000)
  | _ => none

/-- Membership of the binary operator in `_OP_MAP`. -/
def opInMap : BinOpK → Bool
  | .matmult => false
  | _ => true

/-- Membership of the unary operator in `_OP_MAP`. -/
def unOpInMap : UnOpK → Bool
  | .unot => false
  | _ => true

/-- Numeric coercion used for mixed int/float arithmetic; `none` for the
Python value `None`. -/
def Value.toQ : Value → Option ℚ
  | .int n => some (n : ℚ)
  | .float q => some q
  | .vnone => none

/-- Oracle for the behaviour that lives in the Python libraries rather
than in dice.py: `fpow` is float `**` with a non-integral exponent
(irrational in general), `call` is the application of a whitelisted
`_FUNC_MAP` callable to evaluated arguments, and `piQ`, `tauQ`, `eQ` are
the float constants `math.pi`, `math.tau`, `math.e`.  No claim verified
here depends on the numeric output of these; theorems quantify over the
oracle. -/
structure MathOracle where
  fpow : ℚ → ℚ → Except PyErr Value
  call : String → List Value → List (Option String × Value) → Except PyErr Value
  piQ : ℚ
  tauQ : ℚ
  eQ : ℚ

/-- A numeric binary operator (`+`, `-`, `*`): int versus int stays int,
any float operand makes the result float, `None` raises `TypeError`. -/
def numBin (fInt : ℤ → ℤ → ℤ) (fQ : ℚ → ℚ → ℚ) : Value → Value → Except PyErr Value
  | .int a, .int b => .ok (.int (fInt a b))
  | .int a, .float q => .ok (.float (fQ a q))
  | .float q, .int b => .ok (.float (fQ q b))
  | .float a, .float b => .ok (.float (fQ a b))
  | _, _ => .error .typeErr

/-- `operator.truediv`: always float, `ZeroDivisionError` on zero. -/
def applyDiv (a b : Value) : Except PyErr Value :=
  match a.toQ, b.toQ with
  | some x, some y => if y = 0 then .error .zeroDivErr else .ok (.float (x / y))
  | _, _ => .error .typeErr

/-- `operator.floordiv`: floor division (Python `//`). -/
def applyFloorDiv : Value → Value → Except PyErr Value
  | .int a, .int b => if b = 0 then .error .zeroDivErr else .ok (.int (Int.fdiv a b))
  | a, b =>
    match a.toQ, b.toQ with
    | some x, some y =>
      if y = 0 then .error .zeroDivErr else .ok (.float ((Rat.floor (x / y) : ℤ) : ℚ))
    | _, _ => .error .typeErr

/-- `operator.mod`: Python `%`, whose result has the sign of the divisor
(`x - y * floor(x / y)`). -/
def applyMod : Value → Value → Except PyErr Value
  | .int a, .int b => if b = 0 then .error .zeroDivErr else .ok (.int (Int.fmod a b))
  | a, b =>
    match a.toQ, b.toQ with
    | some x, some y =>
      if y = 0 then .error .zeroDivErr
      else .ok (.float (x - y * ((Rat.floor (x / y) : ℤ) : ℚ)))
    | _, _ => .error .typeErr

/-- `operator.pow`: int ** non-negative int is an int; int ** negative
int is the float reciprocal power (`ZeroDivisionError` on base `0`);
float ** integral exponent is an exact rational power; a non-integral
exponent is delegated to the oracle (irrational or complex results). -/
def applyPow (M : MathOracle) : Value → Value → Except PyErr Value
  | .int a, .int b =>
    if 0 ≤ b then .ok (.int (a ^ b.toNat))
    else if a = 0 then .error .zeroDivErr
    else .ok (.float ((a : ℚ) ^ b))
  | a, b =>
    match a.toQ, b.toQ with
    | some x, some y =>
      if y.den = 1 then
        if x = 0 ∧ y.num < 0 then .error .zeroDivErr
        else .ok (.float (x ^ y.num))
      else M.fpow x y
    | _, _ => .error .typeErr

/-- Bitwise difference on ℕ (`a AND NOT b`). -/
def natLdiff (a b : ℕ) : ℕ := Nat.bitwise (fun x y => x && !y) a b

/-- Python bitwise `&` on unbounded ints: `negSucc a` is the complement
of `a`, so the four sign cases reduce to ℕ bit operations. -/
def intAnd : ℤ → ℤ → ℤ
  | .ofNat a, .ofNat b => .ofNat (Nat.land a b)
  | .ofNat a, .negSucc b => .ofNat (natLdiff a b)
  | .negSucc a, .ofNat b => .ofNat (natLdiff b a)
  | .negSucc a, .negSucc b => .negSucc (Nat.lor a b)

/-- Python bitwise `|` on unbounded ints. -/
def intOr : ℤ → ℤ → ℤ
  | .ofNat a, .ofNat b => .ofNat (Nat.lor a b)
  | .ofNat a, .negSucc b => .negSucc (natLdiff b a)
  | .negSucc a, .ofNat b => .negSucc (natLdiff a b)
  | .negSucc a, .negSucc b => .negSucc (Nat.land a b)

/-- Python bitwise xor on unbounded ints. -/
def intXor : ℤ → ℤ → ℤ
  | .ofNat a, .ofNat b => .ofNat (Nat.xor a b)
  | .ofNat a, .negSucc b => .negSucc (Nat.xor a b)
  | .negSucc a, .ofNat b => .negSucc (Nat.xor a b)
  | .negSucc a, .negSucc b => .ofNat (Nat.xor a b)

/-- An int-only binary operator; any other operand raises `TypeError`. -/
def intBin (f : ℤ → ℤ → ℤ) : Value → Value → Except PyErr Value
  | .int a, .int b => .ok (.int (f a b))
  | _, _ => .error .typeErr

/-- `operator.lshift`: `ValueError` on a negative shift count. -/
def applyLShift : Value → Value → Except PyErr Value
  | .int a, .int b =>
    if b < 0 then .error .valueErr else .ok (.int (a * 2 ^ b.toNat))
  | _, _ => .error .typeErr

/-- `operator.rshift`: arithmetic shift, `a // 2 ** b`. -/
def applyRShift : Value → Value → Except PyErr Value
  | .int a, .int b =>
    if b < 0 then .error .valueErr else .ok (.int (Int.fdiv a (2 ^ b.toNat)))
  | _, _ => .error .typeErr

/-- Dispatch through `_OP_MAP` for binary operators.  The `matmult` case
is unreachable: `visit_BinOp` raises `SyntaxError` for it before
dispatch. -/
def applyBin (M : MathOracle) : BinOpK → Value → Value → Except PyErr Value
  | .add => numBin (fun a b => a + b) (fun a b => a + b)
  | .sub => numBin (fun a b => a - b) (fun a b => a - b)
  | .mult => numBin (fun a b => a * b) (fun a b => a * b)
  | .div => applyDiv
  | .pow => applyPow M
  | .floordiv => applyFloorDiv
  | .mod => applyMod
  | .bitand => intBin intAnd
  | .bitor => intBin intOr
  | .bitxor => intBin intXor
  | .rshift => applyRShift
  | .lshift => applyLShift
  | .matmult => fun _ _ => .error .typeErr

/-- Dispatch for the unary operators of `_OP_MAP`; `~` is int-only and
every operator raises `TypeError` on `None`. -/
def applyUn : UnOpK → Value → Except PyErr Value
  | .usub, .int n => .ok (.int (-n))
  | .usub, .float q => .ok (.float (-q))
  | .uadd, .int n => .ok (.int n)
  | .uadd, .float q => .ok (.float q)
  | .invert, .int n => .ok (.int (-n - 1))
  | _, _ => .error .typeErr

/-- The comparison `value > limit` used by the `_OP_LIMITS` and
`_FUNC_LIMITS` checks: a signed comparison, raising `TypeError` when the
value is `None`. -/
def valGtInt : Value → ℤ → Except PyErr Bool
  | .int n, m => .ok (decide (m < n))
  | .float q, m => .ok (decide ((m : ℚ) < q))
  | .vnone, _ => .error .typeErr

/-- `visit_Num`: `ValueError` when `node.n > _NUM_MAX or node.n < _NUM_MIN`. -/
def visitNum : NumLit → Except PyErr Value
  | .int n => if NUM_MAX < n ∨ n < NUM_MIN then .error .valueErr else .ok (.int n)
  | .float q =>
    if (NUM_MAX : ℚ) < q ∨ q < (NUM_MIN : ℚ) then .error .valueErr else .ok (.float q)

/-- `visit_Name`: only `pi`, `tau` and `e` resolve; any other name
yields `None` (the Python function falls through and returns `None`). -/
def visitName (M : MathOracle) (id : String) : Value :=
  if id = "pi" then .float M.piQ
  else if id = "tau" then .float M.tauQ
  else if id = "e" then .float M.eQ
  else .vnone

/-- The key set of `_FUNC_MAP`: every `_ALLOWED_FUNCS` entry exists in
the `math` module (so the `hasattr` filter keeps them all), plus the
seven builtins added explicitly. -/
def funcNames : List String :=
  ["ceil", "copysign", "fabs", "factorial", "gcd", "remainder", "trunc",
   "exp", "log", "log1p", "log2", "log10", "sqrt",
   "acos", "asin", "atan", "atan2", "cos", "hypot", "sin", "tan",
   "degrees", "radians",
   "acosh", "asinh", "atanh", "cosh", "sinh", "tanh",
   "erf", "erfc", "gamma", "lgamma",
   "round", "hash", "max", "min", "float", "int", "abs"]

/-- `_FUNC_LIMITS`. -/
def funcLimits : String → Option ℤ
  | "factorial" => some 1000
  | "exp" => some 709
  | "sqrt" => some 1000000000000000
  | _ => none

/-- The loop `for value in ...: if value > limit: raise ValueError`. -/
def checkLimitList (limit : ℤ) : List Value → Except PyErr Unit
  | [] => .ok ()
  | v :: rest => do
    let b ← valGtInt v limit
    if b then .error .valueErr else checkLimitList limit rest

/-- The `_FUNC_LIMITS` check of `visit_Call`: positional arguments
first, then keyword values (skipped entirely when the function has no
limit entry, which the source expresses with `except KeyError: pass`). -/
def checkFuncLimits (id : String) (vs : List Value)
    (ks : List (Option String × Value)) : Except PyErr Unit :=
  match funcLimits id with
  | none => .ok ()
  | some limit => do
    checkLimitList limit vs
    checkLimitList limit (ks.map fun p => p.2)

/-- Builtin `ord` applied to the raw string of an `ast.Str` node:
the code point for a one-character string, `TypeError` otherwise. -/
def pyOrd (s : String) : Except PyErr Value :=
  match s.data with
  | [c] => .ok (.int c.toNat)
  | _ => .error .typeErr

/-- The shape test `len(node.args) == 1 and isinstance(node.args[0], ast.Str)`
of the `ord` special case, returning the literal when it matches. -/
def ordShape : List PyExpr → Option String
  | [.str s] => some s
  | _ => none

mutual

/-- `Calc.visit` on expression nodes.  `visit_BinOp` evaluates both
operands, then applies the `_OP_LIMITS` check (a signed `>` comparison,
left operand first, short-circuiting like the source `or`), then
dispatches through `_OP_MAP`.  `visit_Call` handles the `ord` special
case before the `_FUNC_MAP` lookup; an unknown name raises `NameError`
before any argument is evaluated; a non-name callee raises
`SyntaxError`.  String nodes have no visitor and fall back to
`generic_visit`, which returns `None`. -/
def visitExpr (M : MathOracle) : PyExpr → Except PyErr Value
  | .num lit => visitNum lit
  | .str _ => .ok .vnone
  | .name id => .ok (visitName M id)
  | .unaryop op e => do
    let v ← visitExpr M e
    if unOpInMap op then applyUn op v else .error .synErr
  | .binop op l r => do
    let vl ← visitExpr M l
    let vr ← visitExpr M r
    match opLimits op with
    | some lim => do
      let b1 ← valGtInt vl lim.1
      if b1 then .error .valueErr
      else do
        let b2 ← valGtInt vr lim.2
        if b2 then .error .valueErr
        else if opInMap op then applyBin M op vl vr else .error .synErr
    | none => if opInMap op then applyBin M op vl vr else .error .synErr
  | .call (.name id) args kwargs =>
    match id == "ord", ordShape args with
    | true, some s => pyOrd s
    | _, _ =>
      if id ∈ funcNames then do
        let vs ← visitArgs M args
        let ks ← visitKwargs M kwargs
        if 5 < vs.length + ks.length then .error .valueErr
        else do
          checkFuncLimits id vs ks
          M.call id vs ks
      else .error .nameErr
  | .call _ _ _ => .error .synErr

/-- Evaluation of the positional arguments of a call, left to right. -/
def visitArgs (M : MathOracle) : List PyExpr → Except PyErr (List Value)
  | [] => .ok []
  | a :: rest => do
    let v ← visitExpr M a
    let vs ← visitArgs M rest
    .ok (v :: vs)

/-- Evaluation of the keyword arguments of a call, left to right. -/
def visitKwargs (M : MathOracle) :
    List (Option String × PyExpr) → Except PyErr (List (Option String × Value))
  | [] => .ok []
  | (k, e) :: rest => do
    let v ← visitExpr M e
    let vs ← visitKwargs M rest
    .ok ((k, v) :: vs)

end

/-- The statement nodes relevant to `Calc.evaluate`: an expression
statement (handled by `visit_Expr`) and an assignment (which has no
visitor, so `generic_visit` visits its children — the target name visit
cannot fail — and returns `None`). -/
inductive Stmt
  | expr (e : PyExpr)
  | assign (target : String) (e : PyExpr)

/-- `Calc.visit` on a statement node. -/
def visitStmt (M : MathOracle) : Stmt → Except PyErr Value
  | .expr e => visitExpr M e
  | .assign _ e => do
    let _ ← visitExpr M e
    .ok .vnone

/-- `Calc.evaluate` after `ast.parse`: `cls().visit(tree.body[0])`.
Only the first statement of the module is visited; an empty module
raises `IndexError` at the subscript. -/
def evaluateModule (M : MathOracle) (body : List Stmt) : Except PyErr Value :=
  match body with
  | [] => .error .indexErr
  | s :: _ => visitStmt M s

/-- A fixed oracle used to instantiate counterexamples and witnesses;
its choices are irrelevant because none of the executions below reach an
oracle call. -/
def oracle0 : MathOracle :=
  { fpow := fun _ _ => .error .typeErr
    call := fun _ _ _ => .error .typeErr
    piQ := 0
    tauQ := 0
    eQ := 0 }

/-- Whether an expression node is a bare name (`isinstance(node.func, ast.Name)`). -/
def isNameNode : PyExpr → Bool
  | .name _ => true
  | _ => false

/-! ## The `DiceBot.roll` handler after dice expansion -/

/-- The configuration attributes of `DiceBot` used by the reply path
(defaults: `show_statement = False`, `show_rolls = False`,
`result_max_length = 512`, `round_decimals = 2`). -/
structure BotConfig where
  show_statement : Bool
  show_rolls : Bool
  result_max_length : ℕ
  round_decimals : ℤ
deriving DecidableEq

/-- One entry of `individual_rolls`: the count, the textual size
descriptor and the individual die results. -/
abbrev RollRecord := ℤ × String × List ℤ

/-- The observable outcome of one `roll` invocation: the empty-pattern
default roll, the uniform bad-pattern reply, a normal text reply, or an
uncaught exception (`IndexError` is not in the `except` clause). -/
inductive Reply
  | defaultRoll (v : ℤ)
  | badPattern
  | message (s : String)
  | crashed
deriving DecidableEq

/-- Round half to even, the rounding used by Python `round`. -/
def roundHalfEven (q : ℚ) : ℤ :=
  let f := Rat.floor q
  if q - f < 1 / 2 then f
  else if (1 : ℚ) / 2 < q - f then f + 1
  else if 2 ∣ f then f else f + 1

/-- Python `round(value, ndigits)`: an int is returned unchanged for
`ndigits ≥ 0`; a float is rounded half-to-even at `ndigits` decimal
places (idealized over exact rationals); `None` raises `TypeError`. -/
def pyRound (v : Value) (nd : ℤ) : Except PyErr Value :=
  match v with
  | .int n =>
    if 0 ≤ nd then .ok (.int n)
    else
      let p : ℤ := 10 ^ (-nd).toNat
      .ok (.int (p * roundHalfEven ((n : ℚ) / (p : ℚ))))
  | .float q =>
    let m : ℚ := (10 : ℚ) ^ nd
    .ok (.float (((roundHalfEven (q * m) : ℤ) : ℚ) / m))
  | .vnone => .error .typeErr

/-- Python `str` of a result value.  Ints print exactly as in Python;
the float rendering is idealized (floats are exact rationals here) and
no claim below exercises it. -/
def pyStr : Value → String
  | .int n => toString n
  | .float q => if q.den = 1 then toString q.num ++ (".0") else toString q
  | .vnone => "None"

/-- Lines 265-267 of the handler: apply `round` when `round_decimals`
is non-negative, then `str`. -/
def roundedStr (cfg : BotConfig) (v : Value) : Except PyErr String := do
  let v2 ← if 0 ≤ cfg.round_decimals then pyRound v cfg.round_decimals else .ok v
  .ok (pyStr v2)

/-- One breakdown line `f"{number}d{size}: {rolls}  "` (two trailing
spaces as in the source). -/
def breakdownLine (rec : RollRecord) : String :=
  toString rec.1 ++ ("d") ++ rec.2.1 ++ (": ")
    ++ String.intercalate (" ") (rec.2.2.map (fun r => toString r)) ++ ("  ")

/-- Lines 275-280: prepend the statement when configured and distinct
from the result, then append the per-group breakdowns when
`individual_rolls` is truthy (rolls were collected, which requires
`show_rolls`). -/
def buildReply (cfg : BotConfig) (expanded : String) (rolls : List RollRecord)
    (res : String) : String :=
  let r1 := if cfg.show_statement ∧ expanded ≠ res then expanded ++ (" = ") ++ res else res
  if cfg.show_rolls ∧ rolls ≠ [] then
    r1 ++ ("\n\n") ++ String.intercalate ("\n") (rolls.map breakdownLine)
  else r1

/-- The `DiceBot.roll` handler (lines 201-281).  `expandO` stands for
`pattern_regex.sub(replacer, pattern)` together with the
`individual_rolls` it collects, and `parseO` for `ast.parse`; both are
library-driven steps, so they are oracle parameters and the theorems
below quantify over them.  The `except` clause converts every error
except `IndexError` into the uniform bad-pattern reply. -/
def rollHandler (cfg : BotConfig)
    (expandO : String → Except PyErr (String × List RollRecord))
    (parseO : String → Except PyErr (List Stmt))
    (M : MathOracle) (u : ℕ → ℤ) (pattern : String) : Reply :=
  if pattern = "" then .defaultRoll (randintM 1 6 (u 0))
  else if 64 < pattern.length then .badPattern
  else
    match (do
      let er ← expandO pattern
      let body ← parseO er.1
      let v ← evaluateModule M body
      let res ← roundedStr cfg v
      if cfg.result_max_length < res.length then Except.error PyErr.valueErr
      else Except.ok (er.1, er.2, res) :
        Except PyErr (String × List RollRecord × String)) with
    | .error .indexErr => .crashed
    | .error _ => .badPattern
    | .ok out => .message (buildReply cfg out.1 out.2.1 out.2.2)

/-! ## Helper lemmas -/

lemma gaussLoop_step (number largest : ℤ) (mean var : ℚ) (z : ℕ → ℚ)
    (fuel : ℕ) (r : ℤ) (k : ℕ) (hacc : gaussAccept number largest r = false) :
    gaussLoop number largest mean var z (fuel + 1) r k
      = gaussLoop number largest mean var z fuel (gaussDraw mean var (z k)) (k + 1) := by
  simp [gaussLoop, hacc]

lemma gaussLoop_done (number largest : ℤ) (mean var : ℚ) (z : ℕ → ℚ)
    (fuel : ℕ) (r : ℤ) (k : ℕ) (hacc : gaussAccept number largest r = true) :
    gaussLoop number largest mean var z fuel r k = some r := by
  cases fuel <;> simp [gaussLoop, hacc]

lemma gaussAccept_empty (number largest r : ℤ) (h : number * largest < number) :
    gaussAccept number largest r = false := by
  by_cases h1 : number ≤ r
  · have h2 : ¬ (r ≤ number * largest) := by omega
    simp [gaussAccept, h1, h2]
  · simp [gaussAccept, h1]

lemma gaussLoop_empty (number largest : ℤ) (mean var : ℚ) (z : ℕ → ℚ)
    (h : number * largest < number) :
    ∀ (fuel : ℕ) (r : ℤ) (k : ℕ), gaussLoop number largest mean var z fuel r k = none := by
  intro fuel
  induction fuel with
  | zero => intro r k; simp [gaussLoop, gaussAccept_empty number largest r h]
  | succ fuel ih =>
    intro r k
    rw [gaussLoop_step number largest mean var z fuel r k
      (gaussAccept_empty number largest r h)]
    exact ih _ (k + 1)

lemma exbind_ok {α β : Type} (a : α) (f : α → Except PyErr β) :
    (Except.ok a >>= f) = f a := rfl

lemma pyOrd_not_single (s : String) (h : s.data.length ≠ 1) :
    pyOrd s = .error .typeErr := by
  obtain ⟨l⟩ := s
  cases l with
  | nil => rfl
  | cons c rest =>
    cases rest with
    | nil => simp at h
    | cons d rest2 => rfl

/-! ## Claims -/

/-- Claim C1 (code bug): with `count = 100 = gauss_limit` and range
`(2,3)`, a normal draw of `150` is accepted by the rejection loop and
returned, although `150 < 200 = count * low`: the loop bounds use
`count * 1`, not `count * low`, so the approximation path can return a
value below the feasible range from `count * low` to `count * high`. -/
theorem roll_gauss_below_feasible :
    randomize 100 100 (DiceSize.range 2 3) (fun _ => 0) (fun _ => -50) 1
      = .ok (some 150) ∧ (150 : ℤ) < 100 * 2 := by
  refine ⟨?_, by norm_num⟩
  have hne : randomize 100 100 (DiceSize.range 2 3) (fun _ => 0) (fun _ => -50) 1
      = .ok (gaussLoop 100 3 (gaussMean 100 3) (gaussVar 100 3) (fun _ => -50) 1 0 0) := by
    simp [randomize, choicesRange, sizeIsInt]
  rw [hne]
  have h1 : (1 : ℕ) = 0 + 1 := rfl
  rw [h1, gaussLoop_step 100 3 _ _ _ 0 0 0 (by decide)]
  have hdraw : gaussDraw (gaussMean 100 3) (gaussVar 100 3) (-50) = 150 := by
    rw [gaussDraw, if_neg (by norm_num [gaussVar])]
    norm_num [gaussMean, ratTrunc]
  rw [hdraw, gaussLoop_done 100 3 _ _ _ 0 150 1 (by decide)]

/-- Claim C2 (code bug): for the valid input `count = 100 = gauss_limit`,
range `(-5,-1)` (so low ≤ high), the acceptance interval of the
rejection loop runs from `100` down to `-100` and is empty: whatever the
random draws are and however many redraws are allowed, the loop never
exits (the source loops forever on such input), refuting guaranteed
termination. -/
theorem roll_gauss_empty_acceptance_no_exit :
    ∀ (u : ℕ → ℤ) (z : ℕ → ℚ) (fuel : ℕ),
      randomize 100 100 (DiceSize.range (-5) (-1)) u z fuel = .ok none := by
  intro u z fuel
  have h : randomize 100 100 (DiceSize.range (-5) (-1)) u z fuel
      = .ok (gaussLoop 100 (-1) (gaussMean 100 (-1)) (gaussVar 100 (-1)) z fuel 0 0) := by
    simp [randomize, choicesRange, sizeIsInt]
  rw [h, gaussLoop_empty 100 (-1) _ _ z (by norm_num) fuel 0 0]

/-- Claim C7 (code bug): a plain die size of `0` does not return `0`:
the derived range is `(1, 0)`, which fails the low ≤ high check placed
before the `largest == 0` branch, so `randomize(n, 0)` raises
`ValueError` for every count `n` (including `n = 0`), and the
`size_is_int and largest == 0` early return is unreachable for int
sizes. -/
theorem roll_die_size_zero_errors :
    ∀ (n : ℤ) (u : ℕ → ℤ) (z : ℕ → ℚ) (fuel : ℕ),
      randomize 100 n (DiceSize.int 0) u z fuel = .error .rangeErr := by
  intro n u z fuel
  simp [randomize, choicesRange]

/-- Claim C3 counterexample: `(-2000) ** 2` evaluates successfully to
`4000000` although the left operand has magnitude `2000`, above the
`pow` bound of `1000`: the `_OP_LIMITS` check compares with a signed
`>`, so large-magnitude negative operands are not rejected, refuting
the claim that operand magnitudes are checked. -/
theorem binop_limit_ignores_magnitude_cex :
    visitExpr oracle0 (.binop .pow (.unaryop .usub (.num (.int 2000))) (.num (.int 2)))
        = .ok (.int 4000000)
      ∧ visitExpr oracle0 (.unaryop .usub (.num (.int 2000))) = .ok (.int (-2000))
      ∧ opLimits .pow = some (1000, 1000)
      ∧ 1000 < (Int.natAbs (-2000)) := by
  refine ⟨by decide, by decide, by decide, by decide⟩

/-- Claim C3 (corrected): for every binary operator with an `_OP_LIMITS`
entry, the evaluated operands are compared against the maxima with a
signed `>` (not by magnitude): evaluation fails with the out-of-bounds
`ValueError` whenever the left operand exceeds its maximum, or the left
passes and the right operand exceeds its maximum. -/
theorem binop_signed_limit_check (M : MathOracle) (op : BinOpK) (l r : PyExpr)
    (lmax rmax : ℤ) (vl vr : Value)
    (hop : opLimits op = some (lmax, rmax))
    (hl : visitExpr M l = .ok vl) (hr : visitExpr M r = .ok vr) :
    (valGtInt vl lmax = .ok true → visitExpr M (.binop op l r) = .error .valueErr)
    ∧ (valGtInt vl lmax = .ok false → valGtInt vr rmax = .ok true →
        visitExpr M (.binop op l r) = .error .valueErr) := by
  constructor
  · intro h1
    rw [visitExpr, hl, hr]
    simp [hop, h1, exbind_ok]
  · intro h1 h2
    rw [visitExpr, hl, hr]
    simp [hop, h1, h2, exbind_ok]

/-- Witness for C3: `1001 ** 1` fails the left `pow` bound. -/
theorem binop_signed_limit_check_witness :
    visitExpr oracle0 (.binop .pow (.num (.int 1001)) (.num (.int 1)))
      = .error .valueErr :=
  (binop_signed_limit_check oracle0 .pow (.num (.int 1001)) (.num (.int 1))
    1000 1000 (.int 1001) (.int 1) (by decide) (by decide) (by decide)).1 (by decide)

/-- Claim C4 counterexample: `10 ** 20` has both operands within the
`pow` limits, so it evaluates successfully to `10 ^ 20`, a value far
above `_NUM_MAX`: results of operations are never re-checked, so an
intermediate can silently exceed the configured magnitude bound. -/
theorem pow_result_exceeds_bound_cex :
    visitExpr oracle0 (.binop .pow (.num (.int 10)) (.num (.int 20)))
        = .ok (.int 100000000000000000000)
      ∧ NUM_MAX < (100000000000000000000 : ℤ) := by
  refine ⟨by decide, by decide⟩

/-- Claim C4 (corrected): only numeric literals are checked against the
magnitude bound — `visit_Num` fails with the out-of-bounds `ValueError`
on any literal above `_NUM_MAX` or below `_NUM_MIN` (both int and float
literals); operation results are not re-checked. -/
theorem num_literal_bound_checked (M : MathOracle) :
    (∀ n : ℤ, NUM_MAX < n ∨ n < NUM_MIN → visitExpr M (.num (.int n)) = .error .valueErr)
    ∧ (∀ q : ℚ, (NUM_MAX : ℚ) < q ∨ q < (NUM_MIN : ℚ) →
        visitExpr M (.num (.float q)) = .error .valueErr) := by
  constructor
  · intro n h
    rw [visitExpr, visitNum, if_pos h]
  · intro q h
    rw [visitExpr, visitNum, if_pos h]

/-- Witness for C4: the literal `_NUM_MAX + 1` is rejected. -/
theorem num_literal_bound_checked_witness :
    visitExpr oracle0 (.num (.int 1000000000000001)) = .error .valueErr :=
  (num_literal_bound_checked oracle0).1 1000000000000001 (by decide)

/-- Claim C5 counterexample: a module of two expression statements (what
`ast.parse` produces for a two-statement input such as `"2+2\n3+3"`)
does not fail with `SyntaxError`: evaluation succeeds with the value of
the first statement only, i.e. the evaluator partially succeeds. -/
theorem multi_statement_partial_eval_cex :
    evaluateModule oracle0
      [Stmt.expr (.binop .add (.num (.int 2)) (.num (.int 2))),
       Stmt.expr (.binop .add (.num (.int 3)) (.num (.int 3)))] = .ok (.int 4) := by decide

/-- Claim C5 (corrected): `Calc.evaluate` visits only `tree.body[0]`:
for any non-empty module only the first statement is evaluated and the
rest are ignored, and an assignment statement does not raise
`SyntaxError` — its generic visit evaluates the assigned expression and
returns `None`. -/
theorem first_statement_only (M : MathOracle) :
    (∀ (s : Stmt) (rest : List Stmt), evaluateModule M (s :: rest) = visitStmt M s)
    ∧ (∀ (t : String) (e : PyExpr) (rest : List Stmt) (v : Value),
        visitExpr M e = .ok v →
          evaluateModule M (Stmt.assign t e :: rest) = .ok .vnone) := by
  constructor
  · intro s rest
    rfl
  · intro t e rest v hv
    show visitStmt M (Stmt.assign t e) = .ok .vnone
    rw [visitStmt, hv]
    rfl

/-- Witness for C5: a two-statement module reduces to its first
statement, and a concrete assignment evaluates to `None`. -/
theorem first_statement_only_witness :
    evaluateModule oracle0 [Stmt.expr (.num (.int 5)), Stmt.expr (.num (.int 6))]
        = visitStmt oracle0 (Stmt.expr (.num (.int 5)))
      ∧ evaluateModule oracle0 [Stmt.assign ("x") (.num (.int 5))] = .ok .vnone :=
  ⟨(first_statement_only oracle0).1 (Stmt.expr (.num (.int 5))) [Stmt.expr (.num (.int 6))],
   (first_statement_only oracle0).2 ("x") (.num (.int 5)) [] (.int 5) (by decide)⟩

/-- Claim C8 (confirmed): calling a name outside the whitelist (the
`_FUNC_MAP` keys together with the special-cased `ord`) fails with
`NameError` — for every oracle and argument list, so no function is
invoked and no argument is evaluated — and a call whose callee is not a
bare name fails with `SyntaxError`, again for every oracle and
arguments. -/
theorem call_whitelist_enforced (M : MathOracle) :
    (∀ (id : String) (args : List PyExpr) (kwargs : List (Option String × PyExpr)),
      id ∉ funcNames → id ≠ "ord" →
        visitExpr M (.call (.name id) args kwargs) = .error .nameErr)
    ∧ (∀ (f : PyExpr) (args : List PyExpr) (kwargs : List (Option String × PyExpr)),
        isNameNode f = false → visitExpr M (.call f args kwargs) = .error .synErr) := by
  constructor
  · intro id args kwargs hmem hord
    rw [visitExpr]
    have hb : (id == "ord") = false := by
      simpa using hord
    rw [hb]
    cases hsh : ordShape args <;> simp [hmem]
  · intro f args kwargs hf
    cases f with
    | name id => simp [isNameNode] at hf
    | num l => rfl
    | str s => rfl
    | unaryop op e => rfl
    | binop op l r => rfl
    | call g a k => rfl

/-- Witness for C8: the unknown name `spam` and the indirect callee `1`. -/
theorem call_whitelist_enforced_witness :
    visitExpr oracle0 (.call (.name ("spam")) [] []) = .error .nameErr
      ∧ visitExpr oracle0 (.call (.num (.int 1)) [.num (.int 2)] []) = .error .synErr :=
  ⟨(call_whitelist_enforced oracle0).1 ("spam") [] [] (by decide) (by decide),
   (call_whitelist_enforced oracle0).2 (.num (.int 1)) [.num (.int 2)] [] (by decide)⟩

/-- Claim C10 counterexample: `ord("a", x=1)` is given two arguments
(one positional string literal plus a keyword argument), which is not
the shape "exactly one argument that is a string literal", yet the call
succeeds with `97` — the shape test counts only positional arguments
and ignores keywords — refuting that every other shape fails with the
undefined-function error. -/
theorem ord_kwargs_ignored_cex :
    visitExpr oracle0 (.call (.name ("ord")) [.str ("a")] [(some ("x"), .num (.int 1))])
      = .ok (.int 97) := by decide

/-- Claim C10 (corrected): a call to `ord` succeeds exactly when the
positional argument list is a single string literal of length one
(keyword arguments are ignored), returning the code point; a single
multi-character string literal fails with `TypeError` (from `ord`
itself); any other positional shape falls through to the `_FUNC_MAP`
lookup, where `ord` is absent, and fails with `NameError`. -/
theorem ord_shape_behaviour (M : MathOracle) :
    (∀ (c : Char) (kwargs : List (Option String × PyExpr)),
      visitExpr M (.call (.name ("ord")) [.str (String.mk [c])] kwargs)
        = .ok (.int c.toNat))
    ∧ (∀ (s : String) (kwargs : List (Option String × PyExpr)), s.data.length ≠ 1 →
        visitExpr M (.call (.name ("ord")) [.str s] kwargs) = .error .typeErr)
    ∧ (∀ (args : List PyExpr) (kwargs : List (Option String × PyExpr)),
        ordShape args = none →
          visitExpr M (.call (.name ("ord")) args kwargs) = .error .nameErr) := by
  refine ⟨?_, ?_, ?_⟩
  · intro c kwargs
    rfl
  · intro s kwargs h
    have hstep : visitExpr M (.call (.name ("ord")) [.str s] kwargs) = pyOrd s := rfl
    rw [hstep, pyOrd_not_single s h]
  · intro args kwargs h
    rw [visitExpr, h]
    rfl

/-- Witness for C10: `ord("b")`, `ord("xy")` and `ord(7)`. -/
theorem ord_shape_behaviour_witness :
    visitExpr oracle0 (.call (.name ("ord")) [.str (String.mk ['b'])] []) = .ok (.int 98)
      ∧ visitExpr oracle0 (.call (.name ("ord")) [.str ("xy")] []) = .error .typeErr
      ∧ visitExpr oracle0 (.call (.name ("ord")) [.num (.int 7)] []) = .error .nameErr :=
  ⟨(ord_shape_behaviour oracle0).1 'b' [],
   (ord_shape_behaviour oracle0).2.1 ("xy") [] (by decide),
   (ord_shape_behaviour oracle0).2.2 [.num (.int 7)] [] (by decide)⟩

/-- Claim C6 (confirmed): any pattern longer than 64 characters gets the
uniform bad-pattern reply; the theorem quantifies over the expansion and
parse oracles, the math oracle and the random stream, so the rejection
happens before — and independently of — any dice expansion or roll
generation. -/
theorem long_pattern_rejected (cfg : BotConfig)
    (expandO : String → Except PyErr (String × List RollRecord))
    (parseO : String → Except PyErr (List Stmt)) (M : MathOracle) (u : ℕ → ℤ)
    (pattern : String) (h : 64 < pattern.length) :
    rollHandler cfg expandO parseO M u pattern = .badPattern := by
  have hne : ¬ (pattern = "") := by
    intro he
    rw [he] at h
    exact absurd h (by decide)
  rw [rollHandler, if_neg hne, if_pos h]

/-- Witness for C6: a 65-character pattern is rejected. -/
theorem long_pattern_rejected_witness :
    rollHandler ⟨false, false, 512, 2⟩ (fun _ => .ok (("z"), []))
        (fun _ => .ok [Stmt.expr (.num (.int 1))]) oracle0 (fun _ => 0)
        ("ppppppppppppppppppppppppppppppppppppppppppppppppppppppppppppppppp")
      = .badPattern :=
  long_pattern_rejected ⟨false, false, 512, 2⟩ (fun _ => .ok (("z"), []))
    (fun _ => .ok [Stmt.expr (.num (.int 1))]) oracle0 (fun _ => 0)
    ("ppppppppppppppppppppppppppppppppppppppppppppppppppppppppppppppppp") (by decide)

set_option maxRecDepth 100000 in
/-- Claim C9 counterexample: with the default configuration plus
`show_statement` enabled, the pattern `10**508` produces a 509-character
result that passes the length check (509 ≤ 512), after which the
statement is prepended, so the emitted reply has 519 characters — above
the configured maximum of 512: the reply is not capped, only the bare
result text is. -/
theorem reply_exceeds_cap_cex :
    rollHandler ⟨true, false, 512, 2⟩ (fun _ => .ok (("10**508"), []))
        (fun _ => .ok [Stmt.expr (.binop .pow (.num (.int 10)) (.num (.int 508)))])
        oracle0 (fun _ => 0) ("10**508")
      = .message (("10**508 = ") ++ toString ((10 : ℤ) ^ 508))
      ∧ 512 < (("10**508 = ") ++ toString ((10 : ℤ) ^ 508)).length := by
  refine ⟨by decide, by decide⟩

/-- Claim C9 (corrected): whenever the rounded result, converted to
text, exceeds `result_max_length`, the handler raises the
result-too-long `ValueError` and replies with the uniform bad-pattern
message; the statement prefix and roll breakdowns are appended only
after this check, so the final reply is not itself capped. -/
theorem result_length_check (cfg : BotConfig)
    (expandO : String → Except PyErr (String × List RollRecord))
    (parseO : String → Except PyErr (List Stmt)) (M : MathOracle) (u : ℕ → ℤ)
    (pattern expanded : String) (rolls : List RollRecord) (body : List Stmt)
    (v : Value) (res : String)
    (h0 : pattern ≠ "") (h1 : pattern.length ≤ 64)
    (he : expandO pattern = .ok (expanded, rolls))
    (hp : parseO expanded = .ok body)
    (hv : evaluateModule M body = .ok v)
    (hs : roundedStr cfg v = .ok res)
    (hlen : cfg.result_max_length < res.length) :
    rollHandler cfg expandO parseO M u pattern = .badPattern := by
  rw [rollHandler, if_neg h0, if_neg (by omega : ¬ (64 < pattern.length))]
  simp only [he, hp, hv, hs, exbind_ok, if_pos hlen]

/-- Witness for C9: a 4-character result against a maximum of 3. -/
theorem result_length_check_witness :
    rollHandler ⟨false, false, 3, 2⟩ (fun _ => .ok (("y"), []))
        (fun _ => .ok [Stmt.expr (.num (.int 1234))]) oracle0 (fun _ => 0) ("x")
      = .badPattern :=
  result_length_check ⟨false, false, 3, 2⟩ (fun _ => .ok (("y"), []))
    (fun _ => .ok [Stmt.expr (.num (.int 1234))]) oracle0 (fun _ => 0)
    ("x") ("y") [] [Stmt.expr (.num (.int 1234))] (.int 1234) ("1234")
    (by decide) (by decide) rfl rfl (by decide) (by decide) (by decide)

end Dice
